import Mathlib

/-!
Verification of the study/focus timer state machine of the `studytime`
repository.  The definitions below are a shallow embedding of
`timer_controller.py` (together with the `TimeConfig` dataclass of
`config_manager.py`).  Python integers are modelled as `Int` (counters that
are only ever set to 0 and incremented are modelled as `Nat`); the Qt event
loop is modelled by explicit state passing; `random.randint` is modelled by
an oracle argument supplying the drawn value, with its failure condition
(`lo > hi` raises `ValueError`) made explicit in an `Option`-returning
variant.
-/

namespace StudyTime

/-- TimeConfig from config_manager.py: time-related configuration, in
minutes (micro_break_duration is in seconds and is advisory only). -/
structure TimeConfig where
  study_duration : Int
  wrapup_time : Int
  rest_duration : Int
  micro_break_interval_min : Int
  micro_break_interval_max : Int
  micro_break_duration : Int
deriving DecidableEq

/-- TimerState from timer_controller.py. -/
inductive TimerState where
  | IDLE
  | STUDYING
  | RESTING
  | PAUSED
deriving DecidableEq

/-- The Qt signals emitted by TimerController, with their payloads. -/
inductive Event where
  | stateChanged (s : TimerState)
  | studyProgress (elapsed total : Int)
  | restProgress (elapsed total : Int)
  | microBreakHint (count : Nat)
  | wrapupHint
  | sessionEnd
  | restEnd
deriving DecidableEq

/-- The mutable state of a TimerController instance.  `timer_active` models
whether the internal 1-second QTimer is currently running, and
`timer_start_count` counts the calls made to the QTimer start method
(instrumentation that makes "does not restart an already-running tick
source" a statable property). -/
structure Timer where
  time_config : TimeConfig
  state : TimerState
  last_active_state : Option TimerState
  study_elapsed : Nat
  rest_elapsed : Nat
  next_micro_break_target : Int
  micro_break_count : Nat
  wrapup_triggered : Bool
  timer_active : Bool
  timer_start_count : Nat
deriving DecidableEq

/-- random.randint lo hi, with the drawn value supplied by the oracle `d`.
For integer arguments CPython raises ValueError exactly when lo > hi, which
is modelled by returning `none`. -/
def randint (lo hi d : Int) : Option Int :=
  if lo ≤ hi then some d else none

/-- _recalculate_micro_break_target with the random draw `d` made explicit
and the possibility of randint raising made explicit (`none` = exception
would propagate out of the recomputation). -/
def recalculate_micro_break_targetE (t : Timer) (d : Int) : Option Timer :=
  let interval_min := t.time_config.micro_break_interval_min * 60
  let interval_max := t.time_config.micro_break_interval_max * 60
  if interval_max ≤ 0 ∨ interval_max < interval_min then
    some { t with next_micro_break_target := 0 }
  else
    (randint interval_min interval_max d).map fun delta =>
      let target := (t.study_elapsed : Int) + delta
      if t.time_config.wrapup_time * 60 ≤ target then
        { t with next_micro_break_target := 0 }
      else
        { t with next_micro_break_target := target }

/-- The value stored into `next_micro_break_target` by
_recalculate_micro_break_target (the draw `d` standing for the randint
result): 0 is the sentinel disabling further micro-breaks. -/
def micro_break_target_value (t : Timer) (d : Int) : Int :=
  let interval_min := t.time_config.micro_break_interval_min * 60
  let interval_max := t.time_config.micro_break_interval_max * 60
  if interval_max ≤ 0 ∨ interval_max < interval_min then 0
  else
    let target := (t.study_elapsed : Int) + d
    if t.time_config.wrapup_time * 60 ≤ target then 0 else target

/-- Total form of _recalculate_micro_break_target; the theorem
`recalculate_micro_break_targetE_eq` below shows the fallible form never
actually raises, so the two agree on every input.  The method writes only
`next_micro_break_target`. -/
def recalculate_micro_break_target (t : Timer) (d : Int) : Timer :=
  { t with next_micro_break_target := micro_break_target_value t d }

/-- _reset_counters.  `d` is the draw consumed by the recomputation of the
micro-break target. -/
def reset_counters (t : Timer) (d : Int) : Timer :=
  recalculate_micro_break_target
    { t with study_elapsed := 0, rest_elapsed := 0,
             micro_break_count := 0, wrapup_triggered := false } d

/-- TimerController.__init__ with configuration `cfg`: all counters start at
zero, the state is IDLE, the QTimer is created but not started, and the
first micro-break target is computed (consuming the draw `d`). -/
def TimerController.init (cfg : TimeConfig) (d : Int) : Timer :=
  recalculate_micro_break_target
    { time_config := cfg, state := TimerState.IDLE, last_active_state := none,
      study_elapsed := 0, rest_elapsed := 0, next_micro_break_target := 0,
      micro_break_count := 0, wrapup_triggered := false, timer_active := false,
      timer_start_count := 0 } d

/-- start_study: reset counters, transition to STUDYING, emit stateChanged,
start the QTimer. -/
def start_study (t : Timer) (d : Int) : Timer × List Event :=
  let t1 := reset_counters t d
  ({ t1 with state := TimerState.STUDYING, timer_active := true,
             timer_start_count := t1.timer_start_count + 1 },
   [Event.stateChanged TimerState.STUDYING])

/-- start_rest: reset the rest counter, transition to RESTING, emit
stateChanged, and start the QTimer only if it is not already running. -/
def start_rest (t : Timer) : Timer × List Event :=
  let t1 := { t with rest_elapsed := 0, state := TimerState.RESTING }
  if t1.timer_active then
    (t1, [Event.stateChanged TimerState.RESTING])
  else
    ({ t1 with timer_active := true, timer_start_count := t1.timer_start_count + 1 },
     [Event.stateChanged TimerState.RESTING])

/-- pause: only from STUDYING or RESTING; remembers the suspended state,
transitions to PAUSED, emits stateChanged, stops the QTimer. -/
def pause (t : Timer) : Timer × List Event :=
  if t.state = TimerState.STUDYING ∨ t.state = TimerState.RESTING then
    ({ t with last_active_state := some t.state, state := TimerState.PAUSED,
              timer_active := false },
     [Event.stateChanged TimerState.PAUSED])
  else (t, [])

/-- resume: only from PAUSED with a recorded (truthy) previous active state;
restores that state, emits stateChanged, restarts the QTimer. -/
def resume (t : Timer) : Timer × List Event :=
  if t.state = TimerState.PAUSED then
    match t.last_active_state with
    | some s =>
      ({ t with state := s, timer_active := true,
                timer_start_count := t.timer_start_count + 1 },
       [Event.stateChanged s])
    | none => (t, [])
  else (t, [])

/-- stop: halt the QTimer unconditionally, transition to IDLE, emit
stateChanged.  Counters are not touched. -/
def stop (t : Timer) : Timer × List Event :=
  ({ t with timer_active := false, state := TimerState.IDLE },
   [Event.stateChanged TimerState.IDLE])

/-- update_time_config: replace the configuration; when IDLE also reset the
counters (consuming the draw `d` for the new micro-break target). -/
def update_time_config (t : Timer) (cfg : TimeConfig) (d : Int) : Timer :=
  let t1 := { t with time_config := cfg }
  if t1.state = TimerState.IDLE then reset_counters t1 d else t1

/-- The micro-break block of _on_tick; runs on the already-incremented
study_elapsed.  The Python guard is
`if self._next_micro_break_target and self.study_elapsed >= self._next_micro_break_target`,
where the first conjunct is integer truthiness (≠ 0). -/
def tick_micro_break (t : Timer) (d : Int) : Timer × List Event :=
  if t.next_micro_break_target ≠ 0 ∧
      t.next_micro_break_target ≤ (t.study_elapsed : Int) then
    let t' := { t with micro_break_count := t.micro_break_count + 1 }
    (recalculate_micro_break_target t' d, [Event.microBreakHint t'.micro_break_count])
  else (t, [])

/-- The wrap-up block of _on_tick. -/
def tick_wrapup (t : Timer) : Timer × List Event :=
  if t.wrapup_triggered = false ∧
      t.time_config.wrapup_time * 60 ≤ (t.study_elapsed : Int) then
    ({ t with wrapup_triggered := true }, [Event.wrapupHint])
  else (t, [])

/-- The session-end block of _on_tick. -/
def tick_session_end (t : Timer) : Timer × List Event :=
  if t.time_config.study_duration * 60 ≤ (t.study_elapsed : Int) then
    ({ t with timer_active := false }, [Event.sessionEnd])
  else (t, [])

/-- _on_tick: the QTimer timeout handler.  `d` is the draw consumed if (and
only if) a micro-break fires on this tick. -/
def on_tick (t : Timer) (d : Int) : Timer × List Event :=
  if t.state = TimerState.STUDYING then
    let t1 := { t with study_elapsed := t.study_elapsed + 1 }
    let total := t.time_config.study_duration * 60
    let p2 := tick_micro_break t1 d
    let p3 := tick_wrapup p2.1
    let p4 := tick_session_end p3.1
    (p4.1, Event.studyProgress (t1.study_elapsed : Int) total :: (p2.2 ++ p3.2 ++ p4.2))
  else if t.state = TimerState.RESTING then
    let t1 := { t with rest_elapsed := t.rest_elapsed + 1 }
    let total := t.time_config.rest_duration * 60
    if total ≤ (t1.rest_elapsed : Int) then
      ({ t1 with timer_active := false },
       [Event.restProgress (t1.rest_elapsed : Int) total, Event.restEnd])
    else
      (t1, [Event.restProgress (t1.rest_elapsed : Int) total])
  else (t, [])

/-- One elapsed real second: the QTimer timeout fires (and _on_tick runs)
exactly while the QTimer is running. -/
def tick (t : Timer) (d : Int) : Timer × List Event :=
  if t.timer_active then on_tick t d else (t, [])

/-- State after `n` elapsed seconds with no intervening commands; `draws n`
is the oracle value for the random draw of the (n+1)-st second. -/
def run_ticks (t : Timer) (draws : Nat → Int) : Nat → Timer
  | 0 => t
  | n + 1 => (tick (run_ticks t draws n) (draws n)).1

/-- The events emitted during the (n+1)-st second (0-indexed `n`). -/
def tick_events (t : Timer) (draws : Nat → Int) (n : Nat) : List Event :=
  (tick (run_ticks t draws n) (draws n)).2

/-- State and concatenated event log of the first `n` seconds, computed in a
single pass. -/
def run_full (t : Timer) (draws : Nat → Int) : Nat → Timer × List Event
  | 0 => (t, [])
  | n + 1 =>
    let p := run_full t draws n
    let q := tick p.1 (draws n)
    (q.1, p.2 ++ q.2)

/-- The external command alphabet of the controller: QTimer timeouts plus
the five public operations and configuration update. -/
inductive Cmd where
  | tickCmd (d : Int)
  | startStudy (d : Int)
  | startRest
  | pauseCmd
  | resumeCmd
  | stopCmd
  | updateConfig (cfg : TimeConfig) (d : Int)
deriving DecidableEq

/-- Execute one command. -/
def exec_cmd (t : Timer) : Cmd → Timer × List Event
  | Cmd.tickCmd d => tick t d
  | Cmd.startStudy d => start_study t d
  | Cmd.startRest => start_rest t
  | Cmd.pauseCmd => pause t
  | Cmd.resumeCmd => resume t
  | Cmd.stopCmd => stop t
  | Cmd.updateConfig cfg d => (update_time_config t cfg d, [])

/-- Execute a command sequence, concatenating the emitted events. -/
def run_cmds (t : Timer) : List Cmd → Timer × List Event
  | [] => (t, [])
  | c :: cs =>
    let p := exec_cmd t c
    let q := run_cmds p.1 cs
    (q.1, p.2 ++ q.2)

/-- Whether a command is a start_study call. -/
def Cmd.isStartStudy : Cmd → Bool
  | Cmd.startStudy _ => true
  | _ => false

/-- The micro-break hint counts occurring in an event log, in order. -/
def micro_hints (evs : List Event) : List Nat :=
  evs.filterMap fun e =>
    match e with
    | Event.microBreakHint c => some c
    | _ => none

/-! ## Basic lemmas about the embedded operations -/

/-- The fallible recomputation never raises: the guard run before randint
implies randint's precondition. -/
theorem recalculate_micro_break_targetE_eq (t : Timer) (d : Int) :
    recalculate_micro_break_targetE t d = some (recalculate_micro_break_target t d) := by
  unfold recalculate_micro_break_targetE recalculate_micro_break_target
      micro_break_target_value randint
  by_cases h : t.time_config.micro_break_interval_max * 60 ≤ 0 ∨
      t.time_config.micro_break_interval_max * 60 <
        t.time_config.micro_break_interval_min * 60
  · rw [if_pos h, if_pos h]
  · have hle : t.time_config.micro_break_interval_min * 60 ≤
        t.time_config.micro_break_interval_max * 60 := by
      push_neg at h
      omega
    rw [if_neg h, if_neg h, if_pos hle, Option.map_some']
    by_cases h2 : t.time_config.wrapup_time * 60 ≤ (t.study_elapsed : Int) + d
    · rw [if_pos h2, if_pos h2]
    · rw [if_neg h2, if_neg h2]

@[simp] theorem recalc_state (t : Timer) (d : Int) :
    (recalculate_micro_break_target t d).state = t.state := rfl

@[simp] theorem recalc_time_config (t : Timer) (d : Int) :
    (recalculate_micro_break_target t d).time_config = t.time_config := rfl

@[simp] theorem recalc_last_active_state (t : Timer) (d : Int) :
    (recalculate_micro_break_target t d).last_active_state = t.last_active_state := rfl

@[simp] theorem recalc_study_elapsed (t : Timer) (d : Int) :
    (recalculate_micro_break_target t d).study_elapsed = t.study_elapsed := rfl

@[simp] theorem recalc_rest_elapsed (t : Timer) (d : Int) :
    (recalculate_micro_break_target t d).rest_elapsed = t.rest_elapsed := rfl

@[simp] theorem recalc_micro_break_count (t : Timer) (d : Int) :
    (recalculate_micro_break_target t d).micro_break_count = t.micro_break_count := rfl

@[simp] theorem recalc_wrapup_triggered (t : Timer) (d : Int) :
    (recalculate_micro_break_target t d).wrapup_triggered = t.wrapup_triggered := rfl

@[simp] theorem recalc_timer_active (t : Timer) (d : Int) :
    (recalculate_micro_break_target t d).timer_active = t.timer_active := rfl

@[simp] theorem recalc_timer_start_count (t : Timer) (d : Int) :
    (recalculate_micro_break_target t d).timer_start_count = t.timer_start_count := rfl

@[simp] theorem recalc_target (t : Timer) (d : Int) :
    (recalculate_micro_break_target t d).next_micro_break_target =
      micro_break_target_value t d := rfl

/-- The recomputed target is either the sentinel 0, or lies strictly between
the current elapsed time and the wrap-up threshold, provided the configured
minimum interval is at least one minute and the draw respects its lower
bound. -/
theorem micro_break_target_value_inv (t : Timer) (d : Int)
    (hmin : 1 ≤ t.time_config.micro_break_interval_min)
    (hd : t.time_config.micro_break_interval_min * 60 ≤ d) :
    micro_break_target_value t d = 0 ∨
      ((t.study_elapsed : Int) < micro_break_target_value t d ∧
        micro_break_target_value t d < t.time_config.wrapup_time * 60) := by
  unfold micro_break_target_value
  by_cases h : t.time_config.micro_break_interval_max * 60 ≤ 0 ∨
      t.time_config.micro_break_interval_max * 60 <
        t.time_config.micro_break_interval_min * 60
  · rw [if_pos h]
    exact Or.inl rfl
  · rw [if_neg h]
    by_cases h2 : t.time_config.wrapup_time * 60 ≤ (t.study_elapsed : Int) + d
    · rw [if_pos h2]
      exact Or.inl rfl
    · rw [if_neg h2]
      right
      constructor
      · omega
      · omega

/-- With a malformed interval configuration (non-positive maximum, or
maximum below minimum) the recomputation always stores the sentinel. -/
theorem micro_break_target_value_malformed (t : Timer) (d : Int)
    (h : t.time_config.micro_break_interval_max ≤ 0 ∨
      t.time_config.micro_break_interval_max < t.time_config.micro_break_interval_min) :
    micro_break_target_value t d = 0 := by
  unfold micro_break_target_value
  have h60 : t.time_config.micro_break_interval_max * 60 ≤ 0 ∨
      t.time_config.micro_break_interval_max * 60 <
        t.time_config.micro_break_interval_min * 60 := by omega
  rw [if_pos h60]

@[simp] theorem tick_micro_break_state (t : Timer) (d : Int) :
    (tick_micro_break t d).1.state = t.state := by
  unfold tick_micro_break
  split <;> rfl

@[simp] theorem tick_micro_break_time_config (t : Timer) (d : Int) :
    (tick_micro_break t d).1.time_config = t.time_config := by
  unfold tick_micro_break
  split <;> rfl

@[simp] theorem tick_micro_break_last (t : Timer) (d : Int) :
    (tick_micro_break t d).1.last_active_state = t.last_active_state := by
  unfold tick_micro_break
  split <;> rfl

@[simp] theorem tick_micro_break_study_elapsed (t : Timer) (d : Int) :
    (tick_micro_break t d).1.study_elapsed = t.study_elapsed := by
  unfold tick_micro_break
  split <;> rfl

@[simp] theorem tick_micro_break_rest_elapsed (t : Timer) (d : Int) :
    (tick_micro_break t d).1.rest_elapsed = t.rest_elapsed := by
  unfold tick_micro_break
  split <;> rfl

@[simp] theorem tick_micro_break_wrapup_triggered (t : Timer) (d : Int) :
    (tick_micro_break t d).1.wrapup_triggered = t.wrapup_triggered := by
  unfold tick_micro_break
  split <;> rfl

@[simp] theorem tick_micro_break_timer_active (t : Timer) (d : Int) :
    (tick_micro_break t d).1.timer_active = t.timer_active := by
  unfold tick_micro_break
  split <;> rfl

@[simp] theorem tick_micro_break_timer_start_count (t : Timer) (d : Int) :
    (tick_micro_break t d).1.timer_start_count = t.timer_start_count := by
  unfold tick_micro_break
  split <;> rfl

theorem tick_micro_break_events (t : Timer) (d : Int) :
    (tick_micro_break t d).2 =
      if t.next_micro_break_target ≠ 0 ∧
          t.next_micro_break_target ≤ (t.study_elapsed : Int) then
        [Event.microBreakHint (t.micro_break_count + 1)]
      else [] := by
  unfold tick_micro_break
  split <;> rfl

theorem tick_micro_break_result (t : Timer) (d : Int) :
    (tick_micro_break t d).1 =
      if t.next_micro_break_target ≠ 0 ∧
          t.next_micro_break_target ≤ (t.study_elapsed : Int) then
        recalculate_micro_break_target
          { t with micro_break_count := t.micro_break_count + 1 } d
      else t := by
  unfold tick_micro_break
  split <;> rfl

@[simp] theorem tick_wrapup_state (t : Timer) :
    (tick_wrapup t).1.state = t.state := by
  unfold tick_wrapup
  split <;> rfl

@[simp] theorem tick_wrapup_time_config (t : Timer) :
    (tick_wrapup t).1.time_config = t.time_config := by
  unfold tick_wrapup
  split <;> rfl

@[simp] theorem tick_wrapup_last (t : Timer) :
    (tick_wrapup t).1.last_active_state = t.last_active_state := by
  unfold tick_wrapup
  split <;> rfl

@[simp] theorem tick_wrapup_study_elapsed (t : Timer) :
    (tick_wrapup t).1.study_elapsed = t.study_elapsed := by
  unfold tick_wrapup
  split <;> rfl

@[simp] theorem tick_wrapup_rest_elapsed (t : Timer) :
    (tick_wrapup t).1.rest_elapsed = t.rest_elapsed := by
  unfold tick_wrapup
  split <;> rfl

@[simp] theorem tick_wrapup_micro_break_count (t : Timer) :
    (tick_wrapup t).1.micro_break_count = t.micro_break_count := by
  unfold tick_wrapup
  split <;> rfl

@[simp] theorem tick_wrapup_target (t : Timer) :
    (tick_wrapup t).1.next_micro_break_target = t.next_micro_break_target := by
  unfold tick_wrapup
  split <;> rfl

@[simp] theorem tick_wrapup_timer_active (t : Timer) :
    (tick_wrapup t).1.timer_active = t.timer_active := by
  unfold tick_wrapup
  split <;> rfl

@[simp] theorem tick_wrapup_timer_start_count (t : Timer) :
    (tick_wrapup t).1.timer_start_count = t.timer_start_count := by
  unfold tick_wrapup
  split <;> rfl

theorem tick_wrapup_triggered_eq (t : Timer) :
    (tick_wrapup t).1.wrapup_triggered =
      (t.wrapup_triggered ||
        decide (t.time_config.wrapup_time * 60 ≤ (t.study_elapsed : Int))) := by
  unfold tick_wrapup
  split
  case isTrue h =>
    simp [h.1, h.2]
  case isFalse h =>
    cases ht : t.wrapup_triggered
    · simp only [ht, Bool.false_or]
      have h2 : ¬ t.time_config.wrapup_time * 60 ≤ (t.study_elapsed : Int) := by
        intro hc
        exact h ⟨ht, hc⟩
      simp [h2]
    · simp [ht]

theorem tick_wrapup_events (t : Timer) :
    (tick_wrapup t).2 =
      if t.wrapup_triggered = false ∧
          t.time_config.wrapup_time * 60 ≤ (t.study_elapsed : Int) then
        [Event.wrapupHint]
      else [] := by
  unfold tick_wrapup
  split <;> rfl

@[simp] theorem tick_session_end_state (t : Timer) :
    (tick_session_end t).1.state = t.state := by
  unfold tick_session_end
  split <;> rfl

@[simp] theorem tick_session_end_time_config (t : Timer) :
    (tick_session_end t).1.time_config = t.time_config := by
  unfold tick_session_end
  split <;> rfl

@[simp] theorem tick_session_end_last (t : Timer) :
    (tick_session_end t).1.last_active_state = t.last_active_state := by
  unfold tick_session_end
  split <;> rfl

@[simp] theorem tick_session_end_study_elapsed (t : Timer) :
    (tick_session_end t).1.study_elapsed = t.study_elapsed := by
  unfold tick_session_end
  split <;> rfl

@[simp] theorem tick_session_end_rest_elapsed (t : Timer) :
    (tick_session_end t).1.rest_elapsed = t.rest_elapsed := by
  unfold tick_session_end
  split <;> rfl

@[simp] theorem tick_session_end_micro_break_count (t : Timer) :
    (tick_session_end t).1.micro_break_count = t.micro_break_count := by
  unfold tick_session_end
  split <;> rfl

@[simp] theorem tick_session_end_target (t : Timer) :
    (tick_session_end t).1.next_micro_break_target = t.next_micro_break_target := by
  unfold tick_session_end
  split <;> rfl

@[simp] theorem tick_session_end_wrapup_triggered (t : Timer) :
    (tick_session_end t).1.wrapup_triggered = t.wrapup_triggered := by
  unfold tick_session_end
  split <;> rfl

@[simp] theorem tick_session_end_timer_start_count (t : Timer) :
    (tick_session_end t).1.timer_start_count = t.timer_start_count := by
  unfold tick_session_end
  split <;> rfl

theorem tick_session_end_active_eq (t : Timer) :
    (tick_session_end t).1.timer_active =
      if t.time_config.study_duration * 60 ≤ (t.study_elapsed : Int) then false
      else t.timer_active := by
  unfold tick_session_end
  split <;> rfl

theorem tick_session_end_events (t : Timer) :
    (tick_session_end t).2 =
      if t.time_config.study_duration * 60 ≤ (t.study_elapsed : Int) then
        [Event.sessionEnd]
      else [] := by
  unfold tick_session_end
  split <;> rfl

theorem on_tick_studying_state (t : Timer) (d : Int)
    (h : t.state = TimerState.STUDYING) :
    (on_tick t d).1.state = t.state := by
  simp [on_tick, h]

theorem on_tick_studying_time_config (t : Timer) (d : Int)
    (h : t.state = TimerState.STUDYING) :
    (on_tick t d).1.time_config = t.time_config := by
  simp [on_tick, h]

theorem on_tick_studying_study_elapsed (t : Timer) (d : Int)
    (h : t.state = TimerState.STUDYING) :
    (on_tick t d).1.study_elapsed = t.study_elapsed + 1 := by
  simp [on_tick, h]

theorem on_tick_studying_rest_elapsed (t : Timer) (d : Int)
    (h : t.state = TimerState.STUDYING) :
    (on_tick t d).1.rest_elapsed = t.rest_elapsed := by
  simp [on_tick, h]

theorem on_tick_studying_last (t : Timer) (d : Int)
    (h : t.state = TimerState.STUDYING) :
    (on_tick t d).1.last_active_state = t.last_active_state := by
  simp [on_tick, h]

theorem on_tick_studying_active (t : Timer) (d : Int)
    (h : t.state = TimerState.STUDYING) :
    (on_tick t d).1.timer_active =
      if t.time_config.study_duration * 60 ≤ (t.study_elapsed : Int) + 1 then false
      else t.timer_active := by
  simp [on_tick, h, tick_session_end_active_eq]

theorem on_tick_studying_triggered (t : Timer) (d : Int)
    (h : t.state = TimerState.STUDYING) :
    (on_tick t d).1.wrapup_triggered =
      (t.wrapup_triggered ||
        decide (t.time_config.wrapup_time * 60 ≤ (t.study_elapsed : Int) + 1)) := by
  simp [on_tick, h, tick_wrapup_triggered_eq]

theorem on_tick_studying_events (t : Timer) (d : Int)
    (h : t.state = TimerState.STUDYING) :
    (on_tick t d).2 =
      Event.studyProgress ((t.study_elapsed : Int) + 1)
          (t.time_config.study_duration * 60) ::
        ((if t.next_micro_break_target ≠ 0 ∧
              t.next_micro_break_target ≤ (t.study_elapsed : Int) + 1 then
            [Event.microBreakHint (t.micro_break_count + 1)]
          else []) ++
         (if t.wrapup_triggered = false ∧
              t.time_config.wrapup_time * 60 ≤ (t.study_elapsed : Int) + 1 then
            [Event.wrapupHint]
          else []) ++
         (if t.time_config.study_duration * 60 ≤ (t.study_elapsed : Int) + 1 then
            [Event.sessionEnd]
          else [])) := by
  simp [on_tick, h, tick_micro_break_events, tick_wrapup_events, tick_session_end_events]

theorem on_tick_resting_result (t : Timer) (d : Int)
    (h : t.state = TimerState.RESTING) :
    (on_tick t d).1 =
      if t.time_config.rest_duration * 60 ≤ (t.rest_elapsed : Int) + 1 then
        { t with rest_elapsed := t.rest_elapsed + 1, timer_active := false }
      else { t with rest_elapsed := t.rest_elapsed + 1 } := by
  simp only [on_tick, h]
  split_ifs <;> simp_all

theorem on_tick_resting_events (t : Timer) (d : Int)
    (h : t.state = TimerState.RESTING) :
    (on_tick t d).2 =
      Event.restProgress ((t.rest_elapsed : Int) + 1)
          (t.time_config.rest_duration * 60) ::
        (if t.time_config.rest_duration * 60 ≤ (t.rest_elapsed : Int) + 1 then
          [Event.restEnd]
        else []) := by
  simp only [on_tick, h]
  split_ifs <;> simp_all

theorem on_tick_other (t : Timer) (d : Int)
    (h1 : t.state ≠ TimerState.STUDYING) (h2 : t.state ≠ TimerState.RESTING) :
    on_tick t d = (t, []) := by
  unfold on_tick
  rw [if_neg h1, if_neg h2]

theorem tick_inactive (t : Timer) (d : Int) (h : t.timer_active = false) :
    tick t d = (t, []) := by
  simp [tick, h]

theorem tick_active (t : Timer) (d : Int) (h : t.timer_active = true) :
    tick t d = on_tick t d := by
  simp [tick, h]

@[simp] theorem run_ticks_zero (t : Timer) (draws : Nat → Int) :
    run_ticks t draws 0 = t := rfl

theorem run_ticks_succ (t : Timer) (draws : Nat → Int) (n : Nat) :
    run_ticks t draws (n + 1) = (tick (run_ticks t draws n) (draws n)).1 := rfl

/-- Once the tick source is halted and no command intervenes, the state
freezes. -/
theorem run_ticks_frozen (t : Timer) (draws : Nat → Int) (n : Nat)
    (h : (run_ticks t draws n).timer_active = false) :
    ∀ k, run_ticks t draws (n + k) = run_ticks t draws n := by
  intro k
  induction k with
  | zero => rfl
  | succ k ih =>
    have hnk : n + (k + 1) = (n + k) + 1 := rfl
    rw [hnk, run_ticks_succ, ih, tick_inactive _ _ h]

/-- Once the tick source is halted and no command intervenes, no further
events are emitted. -/
theorem tick_events_frozen (t : Timer) (draws : Nat → Int) (n : Nat)
    (h : (run_ticks t draws n).timer_active = false) :
    ∀ k, tick_events t draws (n + k) = [] := by
  intro k
  unfold tick_events
  rw [run_ticks_frozen t draws n h k, tick_inactive _ _ h]

@[simp] theorem start_study_state (t : Timer) (d : Int) :
    (start_study t d).1.state = TimerState.STUDYING := rfl

@[simp] theorem start_study_study_elapsed (t : Timer) (d : Int) :
    (start_study t d).1.study_elapsed = 0 := rfl

@[simp] theorem start_study_rest_elapsed (t : Timer) (d : Int) :
    (start_study t d).1.rest_elapsed = 0 := rfl

@[simp] theorem start_study_micro_break_count (t : Timer) (d : Int) :
    (start_study t d).1.micro_break_count = 0 := rfl

@[simp] theorem start_study_wrapup_triggered (t : Timer) (d : Int) :
    (start_study t d).1.wrapup_triggered = false := rfl

@[simp] theorem start_study_timer_active (t : Timer) (d : Int) :
    (start_study t d).1.timer_active = true := rfl

@[simp] theorem start_study_time_config (t : Timer) (d : Int) :
    (start_study t d).1.time_config = t.time_config := rfl

theorem start_study_target (t : Timer) (d : Int) :
    (start_study t d).1.next_micro_break_target =
      micro_break_target_value
        { t with study_elapsed := 0, rest_elapsed := 0,
                 micro_break_count := 0, wrapup_triggered := false } d := rfl

/-- Invariant of an uninterrupted run of ticks from the start of a study
session: the state stays STUDYING, the configuration is untouched, the
study counter equals the number of elapsed seconds, the tick source runs
exactly until the configured total is reached, and (for a positive wrap-up
time) the wrap-up latch is set exactly from the wrap-up threshold on. -/
theorem run_ticks_studying (t : Timer) (draws : Nat → Int)
    (hs : t.state = TimerState.STUDYING) (he : t.study_elapsed = 0)
    (ha : t.timer_active = true) (hw : t.wrapup_triggered = false)
    (hdur : 1 ≤ t.time_config.study_duration) :
    ∀ n, n ≤ (t.time_config.study_duration * 60).toNat →
      (run_ticks t draws n).state = TimerState.STUDYING ∧
      (run_ticks t draws n).time_config = t.time_config ∧
      (run_ticks t draws n).study_elapsed = n ∧
      ((run_ticks t draws n).timer_active = true ↔
        n < (t.time_config.study_duration * 60).toNat) ∧
      (1 ≤ t.time_config.wrapup_time →
        ((run_ticks t draws n).wrapup_triggered = true ↔
          t.time_config.wrapup_time * 60 ≤ (n : Int))) := by
  intro n
  induction n with
  | zero =>
    intro _
    refine ⟨hs, rfl, he, ?_, ?_⟩
    · rw [run_ticks_zero, ha]
      simp only [true_iff]
      omega
    · intro hwt
      rw [run_ticks_zero, hw]
      simp only [Bool.false_eq_true, false_iff]
      omega
  | succ n ih =>
    intro hn1
    have hn : n ≤ (t.time_config.study_duration * 60).toNat := by omega
    obtain ⟨ihs, ihc, ihe, iha, ihw⟩ := ih hn
    have hact : (run_ticks t draws n).timer_active = true := by
      rw [iha]
      omega
    rw [run_ticks_succ, tick_active _ _ hact]
    refine ⟨?_, ?_, ?_, ?_, ?_⟩
    · rw [on_tick_studying_state _ _ ihs, ihs]
    · rw [on_tick_studying_time_config _ _ ihs, ihc]
    · rw [on_tick_studying_study_elapsed _ _ ihs, ihe]
    · rw [on_tick_studying_active _ _ ihs, ihc, ihe, hact]
      split_ifs with h1
      · simp only [Bool.false_eq_true, false_iff]
        omega
      · simp only [true_iff]
        omega
    · intro hwt
      have ihw2 := ihw hwt
      rw [on_tick_studying_triggered _ _ ihs, ihc, ihe]
      cases hb : (run_ticks t draws n).wrapup_triggered
      · rw [hb] at ihw2
        simp only [Bool.false_eq_true, false_iff, not_le] at ihw2
        simp only [Bool.false_or, decide_eq_true_eq]
        constructor
        · intro hc
          push_cast at hc
          omega
        · intro hc
          push_cast at hc
          omega
      · rw [hb] at ihw2
        simp only [true_iff] at ihw2
        simp only [Bool.true_or, true_iff]
        push_cast
        omega

theorem on_tick_studying_target (t : Timer) (d : Int)
    (h : t.state = TimerState.STUDYING) :
    (on_tick t d).1.next_micro_break_target =
      if t.next_micro_break_target ≠ 0 ∧
          t.next_micro_break_target ≤ (t.study_elapsed : Int) + 1 then
        micro_break_target_value
          { t with study_elapsed := t.study_elapsed + 1,
                   micro_break_count := t.micro_break_count + 1 } d
      else t.next_micro_break_target := by
  simp [on_tick, h, tick_micro_break_result]
  split_ifs <;> simp_all

/-- The session-long micro-break invariant: the stored target is either the
sentinel, or lies strictly ahead of the study counter and strictly below the
wrap-up threshold. -/
def MicroInv (t : Timer) : Prop :=
  t.next_micro_break_target = 0 ∨
    ((t.study_elapsed : Int) < t.next_micro_break_target ∧
      t.next_micro_break_target < t.time_config.wrapup_time * 60)

theorem tick_preserves_micro_inv (t : Timer) (d : Int)
    (hmin : 1 ≤ t.time_config.micro_break_interval_min)
    (hd : t.time_config.micro_break_interval_min * 60 ≤ d)
    (h : MicroInv t) :
    MicroInv (tick t d).1 ∧ (tick t d).1.time_config = t.time_config := by
  cases hb : t.timer_active
  · rw [tick_inactive _ _ hb]
    exact ⟨h, rfl⟩
  · rw [tick_active _ _ hb]
    cases hstate : t.state
    case IDLE =>
      rw [on_tick_other _ _ (by simp [hstate]) (by simp [hstate])]
      exact ⟨h, rfl⟩
    case PAUSED =>
      rw [on_tick_other _ _ (by simp [hstate]) (by simp [hstate])]
      exact ⟨h, rfl⟩
    case RESTING =>
      rw [on_tick_resting_result _ _ hstate]
      split_ifs <;> exact ⟨h, rfl⟩
    case STUDYING =>
      refine ⟨?_, on_tick_studying_time_config _ _ hstate⟩
      unfold MicroInv
      rw [on_tick_studying_target _ _ hstate, on_tick_studying_study_elapsed _ _ hstate,
        on_tick_studying_time_config _ _ hstate]
      split_ifs with hfire
      · exact micro_break_target_value_inv _ d hmin hd
      · rcases h with h0 | ⟨h1, h2⟩
        · exact Or.inl h0
        · right
          refine ⟨?_, h2⟩
          have hne : t.next_micro_break_target ≠ 0 := by omega
          push_neg at hfire
          have h3 := hfire hne
          push_cast
          omega

theorem run_ticks_micro_inv (t : Timer) (draws : Nat → Int)
    (hmin : 1 ≤ t.time_config.micro_break_interval_min)
    (hdr : ∀ n, t.time_config.micro_break_interval_min * 60 ≤ draws n)
    (h : MicroInv t) :
    ∀ n, MicroInv (run_ticks t draws n) ∧
      (run_ticks t draws n).time_config = t.time_config := by
  intro n
  induction n with
  | zero => exact ⟨h, rfl⟩
  | succ n ih =>
    obtain ⟨ih1, ih2⟩ := ih
    rw [run_ticks_succ]
    have hmin' : 1 ≤ (run_ticks t draws n).time_config.micro_break_interval_min := by
      rw [ih2]
      exact hmin
    have hd' : (run_ticks t draws n).time_config.micro_break_interval_min * 60 ≤
        draws n := by
      rw [ih2]
      exact hdr n
    obtain ⟨p1, p2⟩ := tick_preserves_micro_inv _ (draws n) hmin' hd' ih1
    refine ⟨p1, ?_⟩
    rw [p2, ih2]

/-- Under the micro-break invariant, a fired micro-break hint is emitted
with the study counter strictly below the wrap-up threshold. -/
theorem tick_micro_hint_below_wrapup (t : Timer) (d : Int) (h : MicroInv t) (c : Nat)
    (hmem : Event.microBreakHint c ∈ (tick t d).2) :
    ((tick t d).1.study_elapsed : Int) < t.time_config.wrapup_time * 60 := by
  cases hb : t.timer_active
  · rw [tick_inactive _ _ hb] at hmem
    simp at hmem
  · rw [tick_active _ _ hb] at hmem ⊢
    cases hstate : t.state
    case IDLE =>
      rw [on_tick_other _ _ (by simp [hstate]) (by simp [hstate])] at hmem
      simp at hmem
    case PAUSED =>
      rw [on_tick_other _ _ (by simp [hstate]) (by simp [hstate])] at hmem
      simp at hmem
    case RESTING =>
      rw [on_tick_resting_events _ _ hstate] at hmem
      split_ifs at hmem <;> simp at hmem
    case STUDYING =>
      rw [on_tick_studying_events _ _ hstate] at hmem
      rw [on_tick_studying_study_elapsed _ _ hstate]
      split_ifs at hmem with h1 h2 h3 <;> simp at hmem <;>
        rcases h with h0 | ⟨ha1, ha2⟩ <;> push_cast <;> omega

/-! ## Concrete configurations used to instantiate the claims -/

/-- A one-minute session whose micro-break interval exceeds the session
length (so no micro-break can be scheduled). -/
def cfgA : TimeConfig :=
  { study_duration := 1, wrapup_time := 1, rest_duration := 1,
    micro_break_interval_min := 10, micro_break_interval_max := 10,
    micro_break_duration := 10 }

/-- The deterministic scenario configuration of §8 of the spec:
study 10 min, wrap-up 10 min, micro-break interval fixed at 1 min. -/
def cfgDet : TimeConfig :=
  { study_duration := 10, wrapup_time := 10, rest_duration := 20,
    micro_break_interval_min := 1, micro_break_interval_max := 1,
    micro_break_duration := 10 }

/-- A configuration with a non-positive minimum interval but a positive,
well-ordered maximum. -/
def cfgZeroMin : TimeConfig :=
  { study_duration := 10, wrapup_time := 10, rest_duration := 20,
    micro_break_interval_min := 0, micro_break_interval_max := 1,
    micro_break_duration := 10 }

/-- Like `cfgZeroMin` but with a one-minute wrap-up threshold, used to drive
a micro-break hint exactly onto the wrap-up threshold. -/
def cfgZeroMinShort : TimeConfig :=
  { study_duration := 2, wrapup_time := 1, rest_duration := 1,
    micro_break_interval_min := 0, micro_break_interval_max := 1,
    micro_break_duration := 10 }

/-- A malformed configuration: maximum interval below minimum. -/
def cfgMalformed : TimeConfig :=
  { study_duration := 10, wrapup_time := 10, rest_duration := 20,
    micro_break_interval_min := 5, micro_break_interval_max := 2,
    micro_break_duration := 10 }

/-! ## The claims -/

/-- Claim C1: for every study session started by start_study under a (valid,
hence positive-duration) fixed configuration, sessionEnd is emitted exactly
once, namely on the tick on which study_elapsed reaches
study_duration*60 (tick number `(study_duration*60).toNat`, at which the
counter equals the total); the tick source is halted at that point and no
event whatsoever is emitted by later ticks. -/
theorem C1_session_end_once (t : Timer) (d0 : Int) (draws : Nat → Int)
    (hdur : 1 ≤ t.time_config.study_duration) :
    (∀ n, (tick_events (start_study t d0).1 draws n).count Event.sessionEnd =
        if n + 1 = (t.time_config.study_duration * 60).toNat then 1 else 0) ∧
    (run_ticks (start_study t d0).1 draws
        (t.time_config.study_duration * 60).toNat).timer_active = false ∧
    (∀ n, (t.time_config.study_duration * 60).toNat ≤ n →
        tick_events (start_study t d0).1 draws n = []) ∧
    (∀ n, n ≤ (t.time_config.study_duration * 60).toNat →
        (run_ticks (start_study t d0).1 draws n).study_elapsed = n) := by
  have hs : (start_study t d0).1.state = TimerState.STUDYING := rfl
  have he : (start_study t d0).1.study_elapsed = 0 := rfl
  have hac : (start_study t d0).1.timer_active = true := rfl
  have hwf : (start_study t d0).1.wrapup_triggered = false := rfl
  have hcfg : (start_study t d0).1.time_config = t.time_config := rfl
  have hdur1 : 1 ≤ (start_study t d0).1.time_config.study_duration := hdur
  have hmaster := run_ticks_studying (start_study t d0).1 draws hs he hac hwf hdur1
  rw [hcfg] at hmaster
  set T := (t.time_config.study_duration * 60).toNat with hT
  have hinact : (run_ticks (start_study t d0).1 draws T).timer_active = false := by
    have hiff := (hmaster T le_rfl).2.2.2.1
    cases hb : (run_ticks (start_study t d0).1 draws T).timer_active
    · rfl
    · exact absurd (hiff.mp hb) (lt_irrefl T)
  have hfrz : ∀ n, T ≤ n → tick_events (start_study t d0).1 draws n = [] := by
    intro n hn
    have hdecomp : n = T + (n - T) := by omega
    rw [hdecomp]
    exact tick_events_frozen _ _ _ hinact _
  refine ⟨?_, hinact, hfrz, fun n hn => (hmaster n hn).2.2.1⟩
  intro n
  by_cases hn : n + 1 ≤ T
  · obtain ⟨ps, pc, pe, pa, _⟩ := hmaster n (by omega)
    have hact : (run_ticks (start_study t d0).1 draws n).timer_active = true :=
      pa.mpr (by omega)
    unfold tick_events
    rw [tick_active _ _ hact, on_tick_studying_events _ _ ps, pc, pe]
    by_cases hend : t.time_config.study_duration * 60 ≤ (n : Int) + 1
    · have hnT : n + 1 = T := by omega
      rw [if_pos hnT, if_pos hend]
      split_ifs <;> simp [List.count_append, List.count_cons]
    · have hnT : n + 1 ≠ T := by omega
      rw [if_neg hnT, if_neg hend]
      split_ifs <;> simp [List.count_append, List.count_cons]
  · have hnT : n + 1 ≠ T := by omega
    rw [if_neg hnT, hfrz n (by omega)]
    rfl

/-- Witness for C1: the concrete configuration `cfgA` (one-minute study
session) satisfies the hypothesis, and the instantiated claim reports the
unique sessionEnd on tick 60. -/
theorem C1_session_end_once_witness :
    (1 ≤ (TimerController.init cfgA 600).time_config.study_duration) ∧
    ((tick_events (start_study (TimerController.init cfgA 600) 600).1
        (fun _ => 600) 59).count Event.sessionEnd =
      if 59 + 1 = ((TimerController.init cfgA 600).time_config.study_duration * 60).toNat
      then 1 else 0) :=
  ⟨by decide,
    (C1_session_end_once (TimerController.init cfgA 600) 600 (fun _ => 600)
      (by decide)).1 59⟩

/-- Claim C6: pause is idempotent (a second pause from PAUSED is a silent
no-op), resume from IDLE changes nothing, and pause immediately followed by
resume restores the prior active state with every counter (study and rest
counters, micro-break count, wrap-up latch, next micro-break target)
unchanged. -/
theorem C6_pause_resume_idempotence (t : Timer) :
    ((pause (pause t).1).1 = (pause t).1 ∧ (pause (pause t).1).2 = []) ∧
    (t.state = TimerState.IDLE → resume t = (t, [])) ∧
    ((t.state = TimerState.STUDYING ∨ t.state = TimerState.RESTING) →
      (resume (pause t).1).1.state = t.state ∧
      (resume (pause t).1).1.study_elapsed = t.study_elapsed ∧
      (resume (pause t).1).1.rest_elapsed = t.rest_elapsed ∧
      (resume (pause t).1).1.micro_break_count = t.micro_break_count ∧
      (resume (pause t).1).1.wrapup_triggered = t.wrapup_triggered ∧
      (resume (pause t).1).1.next_micro_break_target = t.next_micro_break_target) := by
  refine ⟨?_, ?_, ?_⟩
  · cases hstate : t.state <;> simp [pause, hstate]
  · intro h
    simp [resume, h]
  · intro h
    rw [pause, if_pos h]
    simp [resume]

/-- Witness for C6 at a concrete STUDYING state and a concrete IDLE state. -/
theorem C6_pause_resume_idempotence_witness :
    ((TimerController.init cfgA 0).state = TimerState.IDLE) ∧
    (resume (TimerController.init cfgA 0) = (TimerController.init cfgA 0, [])) ∧
    ((start_study (TimerController.init cfgA 0) 0).1.state = TimerState.STUDYING ∨
      (start_study (TimerController.init cfgA 0) 0).1.state = TimerState.RESTING) ∧
    ((resume (pause (start_study (TimerController.init cfgA 0) 0).1).1).1.state =
      (start_study (TimerController.init cfgA 0) 0).1.state) :=
  ⟨by decide,
    (C6_pause_resume_idempotence (TimerController.init cfgA 0)).2.1 (by decide),
    by decide,
    ((C6_pause_resume_idempotence
      (start_study (TimerController.init cfgA 0) 0).1).2.2 (by decide)).1⟩

/-- Claim C7: resume is effective only from PAUSED with a recorded previous
active state — in every other situation it is an exception-free no-op — and
pause from IDLE or PAUSED changes nothing. -/
theorem C7_invalid_transition_noop (t : Timer) :
    ((t.state ≠ TimerState.PAUSED ∨ t.last_active_state = none) →
      resume t = (t, [])) ∧
    ((t.state = TimerState.IDLE ∨ t.state = TimerState.PAUSED) →
      pause t = (t, [])) := by
  constructor
  · rintro (h | h)
    · simp [resume, h]
    · unfold resume
      split
      · rw [h]
      · rfl
  · rintro (h | h) <;> simp [pause, h]

/-- Witness for C7 at the concrete freshly-initialized IDLE controller. -/
theorem C7_invalid_transition_noop_witness :
    ((TimerController.init cfgA 0).state ≠ TimerState.PAUSED ∨
      (TimerController.init cfgA 0).last_active_state = none) ∧
    (resume (TimerController.init cfgA 0) = (TimerController.init cfgA 0, [])) ∧
    ((TimerController.init cfgA 0).state = TimerState.IDLE ∨
      (TimerController.init cfgA 0).state = TimerState.PAUSED) ∧
    (pause (TimerController.init cfgA 0) = (TimerController.init cfgA 0, [])) :=
  ⟨by decide,
    (C7_invalid_transition_noop (TimerController.init cfgA 0)).1 (by decide),
    by decide,
    (C7_invalid_transition_noop (TimerController.init cfgA 0)).2 (by decide)⟩

/-- Claim C8: stop halts the tick source, moves to IDLE, leaves every
counter (study and rest counters, micro-break count, wrap-up latch, next
micro-break target) untouched, and emits no sessionEnd. -/
theorem C8_stop_frame (t : Timer) :
    (stop t).1.timer_active = false ∧
    (stop t).1.state = TimerState.IDLE ∧
    (stop t).1.study_elapsed = t.study_elapsed ∧
    (stop t).1.rest_elapsed = t.rest_elapsed ∧
    (stop t).1.micro_break_count = t.micro_break_count ∧
    (stop t).1.wrapup_triggered = t.wrapup_triggered ∧
    (stop t).1.next_micro_break_target = t.next_micro_break_target ∧
    Event.sessionEnd ∉ (stop t).2 := by
  refine ⟨rfl, rfl, rfl, rfl, rfl, rfl, rfl, ?_⟩
  simp [stop]

/-- Claim C9: start_rest always zeroes the rest counter and moves to
RESTING (emitting stateChanged, so it is not a no-op), leaves the study
counter, micro-break count and wrap-up latch untouched, and — when the tick
source is already running — neither stops nor restarts it (the QTimer start
method is not called again). -/
theorem C9_start_rest_reset (t : Timer) :
    (start_rest t).1.rest_elapsed = 0 ∧
    (start_rest t).1.state = TimerState.RESTING ∧
    (start_rest t).1.study_elapsed = t.study_elapsed ∧
    (start_rest t).1.micro_break_count = t.micro_break_count ∧
    (start_rest t).1.wrapup_triggered = t.wrapup_triggered ∧
    (start_rest t).1.next_micro_break_target = t.next_micro_break_target ∧
    (start_rest t).2 = [Event.stateChanged TimerState.RESTING] ∧
    (t.timer_active = true →
      (start_rest t).1.timer_active = true ∧
      (start_rest t).1.timer_start_count = t.timer_start_count) ∧
    (t.timer_active = false → (start_rest t).1.timer_active = true) := by
  cases hb : t.timer_active <;> simp [start_rest, hb]

/-- Witness for C9 at a concrete state with a running tick source (fresh
session start). -/
theorem C9_start_rest_reset_witness :
    ((start_study (TimerController.init cfgA 0) 0).1.timer_active = true) ∧
    ((start_rest (start_study (TimerController.init cfgA 0) 0).1).1.timer_active = true ∧
      (start_rest (start_study (TimerController.init cfgA 0) 0).1).1.timer_start_count =
        (start_study (TimerController.init cfgA 0) 0).1.timer_start_count) :=
  ⟨by decide,
    (C9_start_rest_reset
      (start_study (TimerController.init cfgA 0) 0).1).2.2.2.2.2.2.2.1 (by decide)⟩

/-- Claim C10: _on_tick invoked while the state is IDLE or PAUSED is a
complete no-op — no counter changes, no transition, no event. -/
theorem C10_tick_idle_paused_noop (t : Timer) (d : Int)
    (h : t.state = TimerState.IDLE ∨ t.state = TimerState.PAUSED) :
    on_tick t d = (t, []) := by
  rcases h with h | h <;> (apply on_tick_other <;> simp [h])

/-- Witness for C10 at the concrete freshly-initialized IDLE controller. -/
theorem C10_tick_idle_paused_noop_witness :
    ((TimerController.init cfgA 0).state = TimerState.IDLE ∨
      (TimerController.init cfgA 0).state = TimerState.PAUSED) ∧
    on_tick (TimerController.init cfgA 0) 0 = (TimerController.init cfgA 0, []) :=
  ⟨by decide, C10_tick_idle_paused_noop (TimerController.init cfgA 0) 0 (by decide)⟩

/-- Draw stream used by the counterexample to C2: every draw is 1 except
the one consumed by the micro-break fired on tick 59, which is 0 (all values
lie inside the configured randint range [0, 60]). -/
def drawsZeroMin : Nat → Int := fun n => if n = 58 then 0 else 1

set_option maxRecDepth 8192 in
/-- Counterexample to claim C2 as stated: under the configuration
`cfgZeroMinShort` (micro_break_interval_min = 0, a value §7 of the spec
admits into the configuration space), with randint draws that all lie in
the legal range [interval_min*60, interval_max*60] = [0, 60], the 60th
micro-break hint is emitted on the tick at which study_elapsed equals the
wrap-up threshold wrapup_time*60 = 60 — not strictly below it. -/
theorem C2_micro_break_bound_counterexample :
    (cfgZeroMinShort.micro_break_interval_min * 60 ≤ 1 ∧
      (1 : Int) ≤ cfgZeroMinShort.micro_break_interval_max * 60) ∧
    (∀ n ∈ List.range 60,
      cfgZeroMinShort.micro_break_interval_min * 60 ≤ drawsZeroMin n ∧
        drawsZeroMin n ≤ cfgZeroMinShort.micro_break_interval_max * 60) ∧
    Event.microBreakHint 60 ∈
      tick_events (start_study (TimerController.init cfgZeroMinShort 1) 1).1
        drawsZeroMin 59 ∧
    ((run_ticks (start_study (TimerController.init cfgZeroMinShort 1) 1).1
        drawsZeroMin 60).study_elapsed : Int) = cfgZeroMinShort.wrapup_time * 60 := by
  decide

/-- Claim C2 (amended: restricted to configurations whose
micro_break_interval_min is positive — the counterexample shows the bound
fails when the minimum interval is 0 — and with every randint draw
respecting its lower bound, as real draws do): along a session run every
stored non-sentinel target is strictly below wrapup_time*60, and every
micro-break hint is emitted with study_elapsed strictly below
wrapup_time*60. -/
theorem C2_micro_break_bound (t : Timer) (d0 : Int) (draws : Nat → Int)
    (hmin : 1 ≤ t.time_config.micro_break_interval_min)
    (hd0 : t.time_config.micro_break_interval_min * 60 ≤ d0)
    (hdr : ∀ n, t.time_config.micro_break_interval_min * 60 ≤ draws n) :
    (∀ n, (run_ticks (start_study t d0).1 draws n).next_micro_break_target ≠ 0 →
        (run_ticks (start_study t d0).1 draws n).next_micro_break_target <
          t.time_config.wrapup_time * 60) ∧
    (∀ n c, Event.microBreakHint c ∈ tick_events (start_study t d0).1 draws n →
        ((run_ticks (start_study t d0).1 draws (n + 1)).study_elapsed : Int) <
          t.time_config.wrapup_time * 60) := by
  have hbase : MicroInv (start_study t d0).1 := by
    unfold MicroInv
    rw [start_study_target]
    exact micro_break_target_value_inv
      { t with study_elapsed := 0, rest_elapsed := 0,
               micro_break_count := 0, wrapup_triggered := false } d0 hmin hd0
  have hinv := run_ticks_micro_inv (start_study t d0).1 draws hmin hdr hbase
  constructor
  · intro n hne
    rcases (hinv n).1 with h0 | ⟨h1, h2⟩
    · exact absurd h0 hne
    · have hc := (hinv n).2
      rw [hc] at h2
      exact h2
  · intro n c hmem
    have hminv := (hinv n).1
    have hc := (hinv n).2
    unfold tick_events at hmem
    have hx := tick_micro_hint_below_wrapup
      (run_ticks (start_study t d0).1 draws n) (draws n) hminv c hmem
    rw [hc] at hx
    rw [run_ticks_succ]
    exact hx

/-- Witness for the amended C2 under the concrete configuration `cfgDet`:
the first stored target is 60, non-sentinel and strictly below the wrap-up
threshold 600. -/
theorem C2_micro_break_bound_witness :
    (1 ≤ (TimerController.init cfgDet 60).time_config.micro_break_interval_min) ∧
    ((TimerController.init cfgDet 60).time_config.micro_break_interval_min * 60
      ≤ 60) ∧
    ((run_ticks (start_study (TimerController.init cfgDet 60) 60).1
        (fun _ => 60) 0).next_micro_break_target ≠ 0) ∧
    ((run_ticks (start_study (TimerController.init cfgDet 60) 60).1
        (fun _ => 60) 0).next_micro_break_target <
      (TimerController.init cfgDet 60).time_config.wrapup_time * 60) :=
  ⟨by decide, by decide, by decide,
    (C2_micro_break_bound (TimerController.init cfgDet 60) 60 (fun _ => 60)
      (by decide) (by decide)
      (fun n =>
        (by decide :
          (TimerController.init cfgDet 60).time_config.micro_break_interval_min * 60
            ≤ 60))).1 0 (by decide)⟩

/-- Once the sentinel is stored, a tick can never fire a micro-break hint
nor change the target (the recomputation only runs after a fire). -/
theorem tick_target_zero (t : Timer) (d : Int)
    (h : t.next_micro_break_target = 0) :
    (tick t d).1.next_micro_break_target = 0 ∧
    ∀ c, Event.microBreakHint c ∉ (tick t d).2 := by
  cases hb : t.timer_active
  · rw [tick_inactive _ _ hb]
    exact ⟨h, by simp⟩
  · rw [tick_active _ _ hb]
    cases hstate : t.state
    case IDLE =>
      rw [on_tick_other _ _ (by simp [hstate]) (by simp [hstate])]
      exact ⟨h, by simp⟩
    case PAUSED =>
      rw [on_tick_other _ _ (by simp [hstate]) (by simp [hstate])]
      exact ⟨h, by simp⟩
    case RESTING =>
      rw [on_tick_resting_result _ _ hstate, on_tick_resting_events _ _ hstate]
      constructor
      · split_ifs <;> exact h
      · intro c
        split_ifs <;> simp
    case STUDYING =>
      rw [on_tick_studying_target _ _ hstate, on_tick_studying_events _ _ hstate]
      constructor
      · simp [h]
      · intro c
        simp [h]

/-- Counterexample to claim C3 as stated: with
micro_break_interval_min = 0 ≤ 0 but micro_break_interval_max = 1 (the
configuration `cfgZeroMin`), micro-break scheduling is NOT disabled — the
first target is the non-sentinel 30 (a legal randint draw from [0, 60]) and
a micro-break hint fires on tick 30. -/
theorem C3_malformed_intervals_counterexample :
    cfgZeroMin.micro_break_interval_min ≤ 0 ∧
    (cfgZeroMin.micro_break_interval_min * 60 ≤ 30 ∧
      (30 : Int) ≤ cfgZeroMin.micro_break_interval_max * 60) ∧
    (start_study (TimerController.init cfgZeroMin 30) 30).1.next_micro_break_target
      ≠ 0 ∧
    Event.microBreakHint 1 ∈
      tick_events (start_study (TimerController.init cfgZeroMin 30) 30).1
        (fun _ => 30) 29 := by
  decide

/-- Claim C3 (amended: the condition under which the code disables
micro-break scheduling is micro_break_interval_max ≤ 0 or
micro_break_interval_max < micro_break_interval_min; a non-positive
micro_break_interval_min alone, with a positive well-ordered maximum, does
not disable scheduling — see the counterexample): under the disable
condition the recomputation stores the sentinel and changes nothing else,
never raises (the fallible form always returns a value), never halts the
tick source, and along a whole session the target stays the sentinel and no
micro-break hint is ever emitted. -/
theorem C3_malformed_intervals_degrade (t : Timer)
    (hmal : t.time_config.micro_break_interval_max ≤ 0 ∨
      t.time_config.micro_break_interval_max < t.time_config.micro_break_interval_min) :
    (∀ d, recalculate_micro_break_target t d =
        { t with next_micro_break_target := 0 }) ∧
    (∀ d, (recalculate_micro_break_target t d).timer_active = t.timer_active) ∧
    (∀ t' d, recalculate_micro_break_targetE t' d =
        some (recalculate_micro_break_target t' d)) ∧
    (∀ d0 draws n,
      (run_ticks (start_study t d0).1 draws n).next_micro_break_target = 0 ∧
      ∀ c, Event.microBreakHint c ∉ tick_events (start_study t d0).1 draws n) := by
  refine ⟨?_, fun d => rfl, recalculate_micro_break_targetE_eq, ?_⟩
  · intro d
    unfold recalculate_micro_break_target
    rw [micro_break_target_value_malformed t d hmal]
  · intro d0 draws n
    have hstart : (start_study t d0).1.next_micro_break_target = 0 := by
      rw [start_study_target]
      exact micro_break_target_value_malformed _ d0 hmal
    have hrun : ∀ m,
        (run_ticks (start_study t d0).1 draws m).next_micro_break_target = 0 := by
      intro m
      induction m with
      | zero => exact hstart
      | succ m ih =>
        rw [run_ticks_succ]
        exact (tick_target_zero _ (draws m) ih).1
    exact ⟨hrun n, fun c => (tick_target_zero _ (draws n) (hrun n)).2 c⟩

/-- Witness for the amended C3 under the concrete configuration
`cfgMalformed` (max = 2 < min = 5). -/
theorem C3_malformed_intervals_degrade_witness :
    ((TimerController.init cfgMalformed 0).time_config.micro_break_interval_max ≤ 0 ∨
      (TimerController.init cfgMalformed 0).time_config.micro_break_interval_max <
        (TimerController.init cfgMalformed 0).time_config.micro_break_interval_min) ∧
    (recalculate_micro_break_target (TimerController.init cfgMalformed 0) 0 =
      { TimerController.init cfgMalformed 0 with next_micro_break_target := 0 }) ∧
    ((run_ticks (start_study (TimerController.init cfgMalformed 0) 0).1
        (fun _ => 0) 1).next_micro_break_target = 0) :=
  ⟨by decide,
    (C3_malformed_intervals_degrade (TimerController.init cfgMalformed 0)
      (by decide)).1 0,
    ((C3_malformed_intervals_degrade (TimerController.init cfgMalformed 0)
      (by decide)).2.2.2 0 (fun _ => 0) 1).1⟩

/-- After a wrap-up hint has fired (or more generally whenever this
predicate holds), no later command other than start_study can make another
wrap-up hint fire: either the latch is set, or the state is not STUDYING
and cannot silently become STUDYING again (a PAUSED state would have to
remember STUDYING for resume to restore it). -/
def NoRefire (t : Timer) : Prop :=
  t.wrapup_triggered = true ∨
    (t.state ≠ TimerState.STUDYING ∧
      (t.state = TimerState.PAUSED →
        t.last_active_state ≠ some TimerState.STUDYING))

theorem tick_wrapup_count_le_one (t : Timer) (d : Int) :
    (tick t d).2.count Event.wrapupHint ≤ 1 := by
  cases hb : t.timer_active
  · rw [tick_inactive _ _ hb]
    simp
  · rw [tick_active _ _ hb]
    cases hstate : t.state
    case IDLE =>
      rw [on_tick_other _ _ (by simp [hstate]) (by simp [hstate])]
      simp
    case PAUSED =>
      rw [on_tick_other _ _ (by simp [hstate]) (by simp [hstate])]
      simp
    case RESTING =>
      rw [on_tick_resting_events _ _ hstate]
      split_ifs <;> simp
    case STUDYING =>
      rw [on_tick_studying_events _ _ hstate]
      split_ifs <;> simp [List.count_append, List.count_cons]

theorem tick_wrapup_mem_latch (t : Timer) (d : Int)
    (hmem : Event.wrapupHint ∈ (tick t d).2) :
    (tick t d).1.wrapup_triggered = true := by
  cases hb : t.timer_active
  · rw [tick_inactive _ _ hb] at hmem
    simp at hmem
  · rw [tick_active _ _ hb] at hmem ⊢
    cases hstate : t.state
    case IDLE =>
      rw [on_tick_other _ _ (by simp [hstate]) (by simp [hstate])] at hmem
      simp at hmem
    case PAUSED =>
      rw [on_tick_other _ _ (by simp [hstate]) (by simp [hstate])] at hmem
      simp at hmem
    case RESTING =>
      rw [on_tick_resting_events _ _ hstate] at hmem
      split_ifs at hmem <;> simp at hmem
    case STUDYING =>
      rw [on_tick_studying_events _ _ hstate] at hmem
      rw [on_tick_studying_triggered _ _ hstate]
      split_ifs at hmem <;> simp_all

theorem tick_preserves_latch (t : Timer) (d : Int)
    (h : t.wrapup_triggered = true) :
    (tick t d).1.wrapup_triggered = true := by
  cases hb : t.timer_active
  · rw [tick_inactive _ _ hb]
    exact h
  · rw [tick_active _ _ hb]
    cases hstate : t.state
    case IDLE =>
      rw [on_tick_other _ _ (by simp [hstate]) (by simp [hstate])]
      exact h
    case PAUSED =>
      rw [on_tick_other _ _ (by simp [hstate]) (by simp [hstate])]
      exact h
    case RESTING =>
      rw [on_tick_resting_result _ _ hstate]
      split_ifs <;> exact h
    case STUDYING =>
      rw [on_tick_studying_triggered _ _ hstate, h]
      simp

theorem tick_norefire (t : Timer) (d : Int) (h : NoRefire t) :
    (tick t d).2.count Event.wrapupHint = 0 ∧ NoRefire (tick t d).1 := by
  cases hb : t.timer_active
  · rw [tick_inactive _ _ hb]
    exact ⟨by simp, h⟩
  · rw [tick_active _ _ hb]
    cases hstate : t.state
    case IDLE =>
      rw [on_tick_other _ _ (by simp [hstate]) (by simp [hstate])]
      exact ⟨by simp, h⟩
    case PAUSED =>
      rw [on_tick_other _ _ (by simp [hstate]) (by simp [hstate])]
      exact ⟨by simp, h⟩
    case RESTING =>
      constructor
      · rw [on_tick_resting_events _ _ hstate]
        split_ifs <;> simp
      · rw [on_tick_resting_result _ _ hstate]
        split_ifs <;> exact h
    case STUDYING =>
      have hlatch : t.wrapup_triggered = true := by
        rcases h with h1 | ⟨h2, _⟩
        · exact h1
        · exact absurd hstate h2
      constructor
      · rw [on_tick_studying_events _ _ hstate]
        split_ifs <;> simp_all [List.count_append, List.count_cons]
      · left
        rw [on_tick_studying_triggered _ _ hstate, hlatch]
        simp

theorem exec_cmd_norefire (t : Timer) (c : Cmd) (hss : c.isStartStudy = false)
    (h : NoRefire t) :
    (exec_cmd t c).2.count Event.wrapupHint = 0 ∧ NoRefire (exec_cmd t c).1 := by
  cases c
  case tickCmd d => exact tick_norefire t d h
  case startStudy d => simp [Cmd.isStartStudy] at hss
  case startRest =>
    constructor
    · simp only [exec_cmd, start_rest]
      split_ifs <;> simp
    · simp only [exec_cmd, start_rest]
      split_ifs <;> exact Or.inr ⟨by simp, by simp⟩
  case pauseCmd =>
    constructor
    · simp only [exec_cmd, pause]
      split_ifs <;> simp
    · simp only [exec_cmd, pause]
      split_ifs with hg
      · rcases h with h1 | ⟨h2, h3⟩
        · exact Or.inl h1
        · refine Or.inr ⟨by simp, fun _ => ?_⟩
          rcases hg with hg | hg
          · exact absurd hg h2
          · simp [hg]
      · exact h
  case resumeCmd =>
    by_cases hp : t.state = TimerState.PAUSED
    · rcases hl : t.last_active_state with _ | s
      · have hEq : exec_cmd t Cmd.resumeCmd = (t, []) := by
          simp [exec_cmd, resume, hp, hl]
        rw [hEq]
        exact ⟨by simp, h⟩
      · have hEq : exec_cmd t Cmd.resumeCmd =
            ({ t with state := s, timer_active := true,
                      timer_start_count := t.timer_start_count + 1 },
             [Event.stateChanged s]) := by
          simp [exec_cmd, resume, hp, hl]
        rw [hEq]
        refine ⟨by simp, ?_⟩
        rcases h with h1 | ⟨h2, h3⟩
        · exact Or.inl h1
        · have hs : s ≠ TimerState.STUDYING := by
            intro hc
            exact h3 hp (by rw [hl, hc])
          refine Or.inr ⟨hs, fun _ => ?_⟩
          simp [hl]
          exact fun hc => hs (by rw [hc])
    · have hEq : exec_cmd t Cmd.resumeCmd = (t, []) := by
        simp [exec_cmd, resume, hp]
      rw [hEq]
      exact ⟨by simp, h⟩
  case stopCmd =>
    refine ⟨by simp [exec_cmd, stop], ?_⟩
    rcases h with h1 | ⟨h2, h3⟩
    · exact Or.inl h1
    · exact Or.inr ⟨by simp [exec_cmd, stop], by simp [exec_cmd, stop]⟩
  case updateConfig cfg d =>
    refine ⟨by simp [exec_cmd], ?_⟩
    simp only [exec_cmd, update_time_config]
    split_ifs with hi
    · refine Or.inr ⟨?_, ?_⟩
      · intro hc
        have hc' : t.state = TimerState.STUDYING := hc
        have hi' : t.state = TimerState.IDLE := hi
        rw [hi'] at hc'
        exact absurd hc' (by simp)
      · intro hc
        have hc' : t.state = TimerState.PAUSED := hc
        have hi' : t.state = TimerState.IDLE := hi
        rw [hi'] at hc'
        exact absurd hc' (by simp)
    · exact h

theorem exec_cmd_wrapup_le_one (t : Timer) (c : Cmd) :
    (exec_cmd t c).2.count Event.wrapupHint ≤ 1 ∧
    (Event.wrapupHint ∈ (exec_cmd t c).2 →
      (exec_cmd t c).1.wrapup_triggered = true) := by
  cases c
  case tickCmd d => exact ⟨tick_wrapup_count_le_one t d, tick_wrapup_mem_latch t d⟩
  case startStudy d => exact ⟨by simp [exec_cmd, start_study], by simp [exec_cmd, start_study]⟩
  case startRest =>
    constructor
    · simp only [exec_cmd, start_rest]
      split_ifs <;> simp
    · simp only [exec_cmd, start_rest]
      split_ifs <;> simp
  case pauseCmd =>
    constructor
    · simp only [exec_cmd, pause]
      split_ifs <;> simp
    · simp only [exec_cmd, pause]
      split_ifs <;> simp
  case resumeCmd =>
    by_cases hp : t.state = TimerState.PAUSED
    · rcases hl : t.last_active_state with _ | s <;>
        simp [exec_cmd, resume, hp, hl]
    · simp [exec_cmd, resume, hp]
  case stopCmd => exact ⟨by simp [exec_cmd, stop], by simp [exec_cmd, stop]⟩
  case updateConfig cfg d => exact ⟨by simp [exec_cmd], by simp [exec_cmd]⟩

@[simp] theorem run_cmds_nil (t : Timer) : run_cmds t [] = (t, []) := rfl

theorem run_cmds_cons_fst (t : Timer) (c : Cmd) (cs : List Cmd) :
    (run_cmds t (c :: cs)).1 = (run_cmds (exec_cmd t c).1 cs).1 := rfl

theorem run_cmds_cons_snd (t : Timer) (c : Cmd) (cs : List Cmd) :
    (run_cmds t (c :: cs)).2 =
      (exec_cmd t c).2 ++ (run_cmds (exec_cmd t c).1 cs).2 := rfl

theorem run_cmds_norefire (cmds : List Cmd) :
    ∀ t : Timer, (∀ c ∈ cmds, c.isStartStudy = false) → NoRefire t →
      (run_cmds t cmds).2.count Event.wrapupHint = 0 ∧
      NoRefire (run_cmds t cmds).1 := by
  induction cmds with
  | nil =>
    intro t _ h
    exact ⟨by simp, h⟩
  | cons c cs ih =>
    intro t hss h
    have hc := hss c (by simp)
    obtain ⟨e1, e2⟩ := exec_cmd_norefire t c hc h
    have hcs : ∀ x ∈ cs, x.isStartStudy = false := fun x hx => hss x (by simp [hx])
    obtain ⟨r1, r2⟩ := ih (exec_cmd t c).1 hcs e2
    constructor
    · rw [run_cmds_cons_snd, List.count_append, e1, r1]
    · rw [run_cmds_cons_fst]
      exact r2

theorem run_cmds_wrapup_le_one (cmds : List Cmd) :
    ∀ t : Timer, (∀ c ∈ cmds, c.isStartStudy = false) →
      (run_cmds t cmds).2.count Event.wrapupHint ≤ 1 := by
  induction cmds with
  | nil =>
    intro t _
    simp
  | cons c cs ih =>
    intro t hss
    have hcs : ∀ x ∈ cs, x.isStartStudy = false := fun x hx => hss x (by simp [hx])
    rw [run_cmds_cons_snd, List.count_append]
    rcases Nat.eq_zero_or_pos ((exec_cmd t c).2.count Event.wrapupHint) with h0 | hpos
    · rw [h0]
      simpa using ih (exec_cmd t c).1 hcs
    · have hmem : Event.wrapupHint ∈ (exec_cmd t c).2 := by
        by_contra hnm
        rw [List.count_eq_zero_of_not_mem hnm] at hpos
        exact absurd hpos (lt_irrefl 0)
      have hlatch := (exec_cmd_wrapup_le_one t c).2 hmem
      have := (run_cmds_norefire cs (exec_cmd t c).1 hcs (Or.inl hlatch)).1
      rw [this]
      have hle := (exec_cmd_wrapup_le_one t c).1
      omega

set_option maxRecDepth 8192 in
/-- Counterexample to claim C4 as stated (its latch clause: "the
wrapup_triggered latch is cleared only by the counter reset in
start_study()"): after a completed one-minute session (latch set on tick
60), calling stop() and then update_time_config() — no start_study — while
IDLE clears the latch, because update_time_config also calls
_reset_counters when the state is IDLE. -/
theorem C4_wrapup_once_counterexample :
    (run_ticks (start_study (TimerController.init cfgA 600) 600).1
        (fun _ => 600) 60).wrapup_triggered = true ∧
    (update_time_config
        (stop (run_ticks (start_study (TimerController.init cfgA 600) 600).1
          (fun _ => 600) 60)).1 cfgA 600).wrapup_triggered = false := by
  decide

/-- Claim C4 (amended: the latch clause becomes "the latch is cleared only
by the counter reset reached from start_study() or from
update_time_config() invoked while Idle" — the counterexample shows the
update_time_config path also clears it): between two start_study calls the
wrap-up hint fires at most once over any command sequence; along an
uninterrupted tick run the hint fires exactly on the tick where
study_elapsed reaches wrapup_time*60, and only if that threshold does not
exceed the session total (otherwise never); and every command other than
start_study and update_time_config preserves a set latch, update_time_config
preserving it whenever the state is not IDLE. -/
theorem C4_wrapup_once (t : Timer) (d0 : Int) (draws : Nat → Int)
    (cmds : List Cmd)
    (hss : ∀ c ∈ cmds, c.isStartStudy = false)
    (hdur : 1 ≤ t.time_config.study_duration)
    (hwt : 1 ≤ t.time_config.wrapup_time) :
    ((run_cmds (start_study t d0).1 cmds).2.count Event.wrapupHint ≤ 1) ∧
    (∀ n, Event.wrapupHint ∈ tick_events (start_study t d0).1 draws n ↔
      ((n : Int) + 1 = t.time_config.wrapup_time * 60 ∧
        t.time_config.wrapup_time * 60 ≤ t.time_config.study_duration * 60)) ∧
    (∀ (t' : Timer) (c : Cmd), c.isStartStudy = false →
      (∀ cfg d, c ≠ Cmd.updateConfig cfg d) →
      t'.wrapup_triggered = true → (exec_cmd t' c).1.wrapup_triggered = true) ∧
    (∀ (t' : Timer) (cfg : TimeConfig) (d : Int),
      t'.state ≠ TimerState.IDLE →
      (update_time_config t' cfg d).wrapup_triggered = t'.wrapup_triggered) := by
  refine ⟨run_cmds_wrapup_le_one cmds _ hss, ?_, ?_, ?_⟩
  · have hs : (start_study t d0).1.state = TimerState.STUDYING := rfl
    have he : (start_study t d0).1.study_elapsed = 0 := rfl
    have hac : (start_study t d0).1.timer_active = true := rfl
    have hwf : (start_study t d0).1.wrapup_triggered = false := rfl
    have hcfg : (start_study t d0).1.time_config = t.time_config := rfl
    have hdur1 : 1 ≤ (start_study t d0).1.time_config.study_duration := hdur
    have hmaster := run_ticks_studying (start_study t d0).1 draws hs he hac hwf hdur1
    rw [hcfg] at hmaster
    set T := (t.time_config.study_duration * 60).toNat with hT
    intro n
    by_cases hn : n < T
    · obtain ⟨ps, pc, pe, pa, pw⟩ := hmaster n (le_of_lt hn)
      have hact : (run_ticks (start_study t d0).1 draws n).timer_active = true :=
        pa.mpr hn
      have hw2 := pw hwt
      unfold tick_events
      rw [tick_active _ _ hact, on_tick_studying_events _ _ ps, pc, pe]
      constructor
      · intro hmem
        by_cases hw :
            (run_ticks (start_study t d0).1 draws n).wrapup_triggered = false ∧
              t.time_config.wrapup_time * 60 ≤ (n : Int) + 1
        · obtain ⟨hw3, hw4⟩ := hw
          have hnot : ¬ t.time_config.wrapup_time * 60 ≤ (n : Int) := by
            intro hc
            rw [hw2.mpr hc] at hw3
            exact absurd hw3 (by simp)
          exact ⟨by omega, by omega⟩
        · rw [if_neg hw] at hmem
          split_ifs at hmem <;> simp at hmem
      · rintro ⟨heq, hle⟩
        have h1 : ¬ t.time_config.wrapup_time * 60 ≤ (n : Int) := by omega
        have htf : (run_ticks (start_study t d0).1 draws n).wrapup_triggered = false := by
          cases hb : (run_ticks (start_study t d0).1 draws n).wrapup_triggered
          · rfl
          · exact absurd (hw2.mp hb) h1
        rw [if_pos (show (run_ticks (start_study t d0).1 draws n).wrapup_triggered
            = false ∧ t.time_config.wrapup_time * 60 ≤ (n : Int) + 1 from
            ⟨htf, by omega⟩)]
        simp
    · have hinact : (run_ticks (start_study t d0).1 draws T).timer_active = false := by
        have hiff := (hmaster T le_rfl).2.2.2.1
        cases hb : (run_ticks (start_study t d0).1 draws T).timer_active
        · rfl
        · exact absurd (hiff.mp hb) (lt_irrefl T)
      have hdecomp : n = T + (n - T) := by omega
      rw [hdecomp, tick_events_frozen _ _ _ hinact _]
      constructor
      · intro hmem
        simp at hmem
      · rintro ⟨heq, hle⟩
        exfalso
        omega
  · intro t' c hss2 hnu hl
    cases c
    case tickCmd d => exact tick_preserves_latch t' d hl
    case startStudy d => simp [Cmd.isStartStudy] at hss2
    case startRest =>
      simp only [exec_cmd, start_rest]
      split_ifs <;> exact hl
    case pauseCmd =>
      simp only [exec_cmd, pause]
      split_ifs <;> exact hl
    case resumeCmd =>
      by_cases hp : t'.state = TimerState.PAUSED
      · rcases hlast : t'.last_active_state with _ | s <;>
          simp [exec_cmd, resume, hp, hlast] <;> exact hl
      · simp [exec_cmd, resume, hp]
        exact hl
    case stopCmd => exact hl
    case updateConfig cfg d => exact absurd rfl (hnu cfg d)
  · intro t' cfg d hni
    simp only [update_time_config]
    split_ifs with hi
    · exact absurd hi hni
    · rfl

/-- Witness for the amended C4 under the concrete configuration `cfgA`
(wrap-up threshold 60 within a 60-second session): the empty command
sequence fires at most one hint, and tick 60 is characterized as the unique
wrap-up tick. -/
theorem C4_wrapup_once_witness :
    (1 ≤ (TimerController.init cfgA 600).time_config.study_duration) ∧
    (1 ≤ (TimerController.init cfgA 600).time_config.wrapup_time) ∧
    ((run_cmds (start_study (TimerController.init cfgA 600) 600).1 []).2.count
      Event.wrapupHint ≤ 1) ∧
    (Event.wrapupHint ∈
        tick_events (start_study (TimerController.init cfgA 600) 600).1
          (fun _ => 600) 59 ↔
      (((59 : Nat) : Int) + 1 =
          (TimerController.init cfgA 600).time_config.wrapup_time * 60 ∧
        (TimerController.init cfgA 600).time_config.wrapup_time * 60 ≤
          (TimerController.init cfgA 600).time_config.study_duration * 60)) :=
  ⟨by decide, by decide,
    (C4_wrapup_once (TimerController.init cfgA 600) 600 (fun _ => 600) []
      (by simp) (by decide) (by decide)).1,
    (C4_wrapup_once (TimerController.init cfgA 600) 600 (fun _ => 600) []
      (by simp) (by decide) (by decide)).2.1 59⟩

/-! Composition lemmas that let long runs be evaluated in bounded chunks. -/

theorem run_ticks_add (t : Timer) (draws : Nat → Int) (a b : Nat) :
    run_ticks t draws (a + b) =
      run_ticks (run_ticks t draws a) (fun k => draws (a + k)) b := by
  induction b with
  | zero => rfl
  | succ b ih =>
    rw [show a + (b + 1) = (a + b) + 1 from rfl, run_ticks_succ, run_ticks_succ, ih]

theorem tick_events_add (t : Timer) (draws : Nat → Int) (a b : Nat) :
    tick_events t draws (a + b) =
      tick_events (run_ticks t draws a) (fun k => draws (a + k)) b := by
  unfold tick_events
  rw [run_ticks_add]

theorem run_full_succ (t : Timer) (draws : Nat → Int) (n : Nat) :
    run_full t draws (n + 1) =
      ((tick (run_full t draws n).1 (draws n)).1,
        (run_full t draws n).2 ++ (tick (run_full t draws n).1 (draws n)).2) := rfl

theorem run_full_fst (t : Timer) (draws : Nat → Int) :
    ∀ n, (run_full t draws n).1 = run_ticks t draws n := by
  intro n
  induction n with
  | zero => rfl
  | succ n ih => simp [run_full_succ, run_ticks_succ, ih]

theorem run_full_add (t : Timer) (draws : Nat → Int) (a b : Nat) :
    (run_full t draws (a + b)).1 =
      (run_full (run_full t draws a).1 (fun k => draws (a + k)) b).1 ∧
    (run_full t draws (a + b)).2 =
      (run_full t draws a).2 ++
        (run_full (run_full t draws a).1 (fun k => draws (a + k)) b).2 := by
  induction b with
  | zero => exact ⟨rfl, by simp [run_full]⟩
  | succ b ih =>
    obtain ⟨ih1, ih2⟩ := ih
    rw [show a + (b + 1) = (a + b) + 1 from rfl]
    constructor
    · simp [run_full_succ, ih1]
    · simp [run_full_succ, ih1, ih2]

theorem run_ticks_add_const (t : Timer) (d : Int) (a b : Nat) :
    run_ticks t (fun _ => d) (a + b) =
      run_ticks (run_ticks t (fun _ => d) a) (fun _ => d) b :=
  run_ticks_add t (fun _ => d) a b

theorem tick_events_add_const (t : Timer) (d : Int) (a b : Nat) :
    tick_events t (fun _ => d) (a + b) =
      tick_events (run_ticks t (fun _ => d) a) (fun _ => d) b :=
  tick_events_add t (fun _ => d) a b

theorem run_full_snd_add_const (t : Timer) (d : Int) (a b : Nat) :
    (run_full t (fun _ => d) (a + b)).2 =
      (run_full t (fun _ => d) a).2 ++
        (run_full (run_full t (fun _ => d) a).1 (fun _ => d) b).2 :=
  (run_full_add t (fun _ => d) a b).2

theorem micro_hints_append (evs evs' : List Event) :
    micro_hints (evs ++ evs') = micro_hints evs ++ micro_hints evs' := by
  unfold micro_hints
  exact List.filterMap_append evs evs' _

/-- The controller state reached 300 seconds into the deterministic
scenario session: 5 micro-breaks fired, the next target at 360. -/
def detS300 : Timer :=
  { time_config := cfgDet, state := TimerState.STUDYING, last_active_state := none,
    study_elapsed := 300, rest_elapsed := 0, next_micro_break_target := 360,
    micro_break_count := 5, wrapup_triggered := false, timer_active := true,
    timer_start_count := 1 }

set_option maxRecDepth 8192 in
theorem det_chunk1_state :
    (run_full (start_study (TimerController.init cfgDet 60) 60).1
      (fun _ => 60) 300).1 = detS300 := by
  decide

set_option maxRecDepth 8192 in
theorem det_chunk1_hints :
    micro_hints (run_full (start_study (TimerController.init cfgDet 60) 60).1
      (fun _ => 60) 300).2 = [1, 2, 3, 4, 5] := by
  decide

theorem det_run_ticks_300 :
    run_ticks (start_study (TimerController.init cfgDet 60) 60).1
      (fun _ => 60) 300 = detS300 := by
  rw [← run_full_fst]
  exact det_chunk1_state

set_option maxRecDepth 8192 in
/-- Counterexample to claim C5 as stated: the claim demands "no
micro-break-hint at or after 540", yet (as the claim itself also asserts)
the 9th hint is emitted exactly at study_elapsed = 540 — on tick 540, whose
events are tick_events index 539 — so a hint does occur AT 540. -/
theorem C5_deterministic_scenario_counterexample :
    Event.microBreakHint 9 ∈
      tick_events (start_study (TimerController.init cfgDet 60) 60).1
        (fun _ => 60) 539 ∧
    (run_ticks (start_study (TimerController.init cfgDet 60) 60).1
        (fun _ => 60) 540).study_elapsed = 540 := by
  constructor
  · rw [show (539 : Nat) = 300 + 239 from rfl, tick_events_add_const,
      det_run_ticks_300]
    decide
  · rw [show (540 : Nat) = 300 + 240 from rfl, run_ticks_add_const,
      det_run_ticks_300]
    decide

set_option maxRecDepth 8192 in
/-- Claim C5 (amended: "no micro-break-hint at or after 540" becomes "no
micro-break-hint strictly after 540", which is what the code does — the 9th
hint fires exactly at 540): under configuration cfgDet (study 10 min,
wrap-up 10 min, micro interval fixed at 1 min) every legal randint draw is
forced to 60, and the 600-tick session emits exactly the micro-break hints
1 through 9, hint k on tick 60k (i.e. at study_elapsed 60k, event index
60k-1), with the hint log over the full 600 ticks identical to the log over
the first 540 (so none after 540: the 10th target 600 reaches the wrap-up
threshold 600 and is disabled). -/
theorem C5_deterministic_scenario (dInit d0 : Int) (draws : Nat → Int)
    (hInit : 60 ≤ dInit ∧ dInit ≤ 60)
    (h0 : 60 ≤ d0 ∧ d0 ≤ 60)
    (hdr : ∀ n, 60 ≤ draws n ∧ draws n ≤ 60) :
    (micro_hints (run_full (start_study (TimerController.init cfgDet dInit) d0).1
        draws 600).2 = [1, 2, 3, 4, 5, 6, 7, 8, 9]) ∧
    (micro_hints (run_full (start_study (TimerController.init cfgDet dInit) d0).1
        draws 540).2 = [1, 2, 3, 4, 5, 6, 7, 8, 9]) ∧
    (Event.microBreakHint 1 ∈
        tick_events (start_study (TimerController.init cfgDet dInit) d0).1 draws 59 ∧
      Event.microBreakHint 2 ∈
        tick_events (start_study (TimerController.init cfgDet dInit) d0).1 draws 119 ∧
      Event.microBreakHint 3 ∈
        tick_events (start_study (TimerController.init cfgDet dInit) d0).1 draws 179 ∧
      Event.microBreakHint 4 ∈
        tick_events (start_study (TimerController.init cfgDet dInit) d0).1 draws 239 ∧
      Event.microBreakHint 5 ∈
        tick_events (start_study (TimerController.init cfgDet dInit) d0).1 draws 299 ∧
      Event.microBreakHint 6 ∈
        tick_events (start_study (TimerController.init cfgDet dInit) d0).1 draws 359 ∧
      Event.microBreakHint 7 ∈
        tick_events (start_study (TimerController.init cfgDet dInit) d0).1 draws 419 ∧
      Event.microBreakHint 8 ∈
        tick_events (start_study (TimerController.init cfgDet dInit) d0).1 draws 479 ∧
      Event.microBreakHint 9 ∈
        tick_events (start_study (TimerController.init cfgDet dInit) d0).1 draws 539) ∧
    ((run_ticks (start_study (TimerController.init cfgDet dInit) d0).1
        draws 540).study_elapsed = 540) := by
  have h1 : dInit = 60 := le_antisymm hInit.2 hInit.1
  have h2 : d0 = 60 := le_antisymm h0.2 h0.1
  have h3 : draws = fun _ => (60 : Int) :=
    funext fun n => le_antisymm (hdr n).2 (hdr n).1
  subst h1
  subst h2
  subst h3
  have hrest300 : micro_hints (run_full detS300 (fun _ => (60 : Int)) 300).2 =
      [6, 7, 8, 9] := by
    decide
  have hrest240 : micro_hints (run_full detS300 (fun _ => (60 : Int)) 240).2 =
      [6, 7, 8, 9] := by
    decide
  refine ⟨?_, ?_, ⟨?_, ?_, ?_, ?_, ?_, ?_, ?_, ?_, ?_⟩, ?_⟩
  · rw [show (600 : Nat) = 300 + 300 from rfl, run_full_snd_add_const,
      micro_hints_append, det_chunk1_state, det_chunk1_hints, hrest300]
    rfl
  · rw [show (540 : Nat) = 300 + 240 from rfl, run_full_snd_add_const,
      micro_hints_append, det_chunk1_state, det_chunk1_hints, hrest240]
    rfl
  · decide
  · decide
  · decide
  · decide
  · decide
  · rw [show (359 : Nat) = 300 + 59 from rfl, tick_events_add_const,
      det_run_ticks_300]
    decide
  · rw [show (419 : Nat) = 300 + 119 from rfl, tick_events_add_const,
      det_run_ticks_300]
    decide
  · rw [show (479 : Nat) = 300 + 179 from rfl, tick_events_add_const,
      det_run_ticks_300]
    decide
  · rw [show (539 : Nat) = 300 + 239 from rfl, tick_events_add_const,
      det_run_ticks_300]
    decide
  · rw [show (540 : Nat) = 300 + 240 from rfl, run_ticks_add_const,
      det_run_ticks_300]
    decide

/-- Witness for the amended C5 at the forced draw value 60. -/
theorem C5_deterministic_scenario_witness :
    ((60 : Int) ≤ 60 ∧ (60 : Int) ≤ 60) ∧
    (micro_hints (run_full (start_study (TimerController.init cfgDet 60) 60).1
        (fun _ => 60) 600).2 = [1, 2, 3, 4, 5, 6, 7, 8, 9]) :=
  ⟨⟨le_refl 60, le_refl 60⟩,
    (C5_deterministic_scenario 60 60 (fun _ => 60)
      ⟨le_refl 60, le_refl 60⟩ ⟨le_refl 60, le_refl 60⟩
      (fun _ => ⟨le_refl 60, le_refl 60⟩)).1⟩

end StudyTime
